import Mathlib

/-!
Verification of the bubblejail in-sandbox helper daemon
(src/bubblejail/bubblejail_helper.py) against its specification.

The Python source is shallowly embedded: pure data manipulation becomes
Lean functions on an explicit JSON value type; the interactions with the
operating system (waitpid, wait3, kill, subprocess spawning, event-loop
awaits) are modelled by explicit event traces and by lists of OS results
supplied as inputs.  The Python stdlib json codec (json.dumps and
json.loads) is external library code, not part of this repository; a byte
line is therefore represented by the JSON value it encodes, since dumps
is injective and loads is its left inverse on well-formed lines.
-/

/-- JSON values, as produced by json.loads on a request byte line. -/
inductive Json where
  | null : Json
  | bool (b : Bool) : Json
  | num (n : Int) : Json
  | str (s : String) : Json
  | arr (xs : List Json) : Json
  | obj (fields : List (String × Json)) : Json

/-- Python dict lookup d[k] at the JSON level: first binding of key k. -/
def dict_get (d : List (String × Json)) (k : String) : Option Json :=
  (d.find? (fun kv => kv.1 == k)).map (fun kv => kv.2)

/-- Python dict assignment d[k] = v: replace the binding in place when the
key is present, otherwise append the new binding at the end. -/
def dict_set (d : List (String × Json)) (k : String) (v : Json) :
    List (String × Json) :=
  if (d.find? (fun kv => kv.1 == k)).isSome then
    d.map (fun kv => if kv.1 == k then (k, v) else kv)
  else
    d ++ [(k, v)]

/-- Python dict.pop(k): remove the binding of key k. -/
def dict_pop (d : List (String × Json)) (k : String) :
    List (String × Json) :=
  d.filter (fun kv => kv.1 != k)

/-- Python truthiness of a JSON-decoded value, as used by
`PIPE if wait_response else None` in BubblejailHelper.client_handler. -/
def py_truthy : Json → Bool
  | .null => false
  | .bool b => b
  | .num n => n != 0
  | .str s => s.length != 0
  | .arr xs => xs.length != 0
  | .obj fields => fields.length != 0

/-- Errors the decoding path can raise (Python KeyError / TypeError). -/
inductive PyErr where
  | key_error (k : String) : PyErr
  | type_error (msg : String) : PyErr
deriving DecidableEq

/-- JsonRpcRequest._json_byte_line_to_dict: json.loads the line (already
done by our byte-line representation), copy the "id" entry to a
"request_id" entry, then pop "id".  Reading a missing "id" raises
KeyError; subscripting a non-dict raises TypeError. -/
def json_byte_line_to_dict (data : Json) :
    Except PyErr (List (String × Json)) :=
  match data with
  | .obj d =>
      match dict_get d "id" with
      | none => .error (.key_error "id")
      | some idv => .ok (dict_pop (dict_set d "request_id" idv) "id")
  | _ => .error (.type_error "line did not decode to a dict")

/-- The decoded request variants RequestPing and RequestRun.  RequestPing
stores only the request id (its params are None); RequestRun stores the
args_to_run and wait_response constructor arguments exactly as decoded
(Python does not enforce the annotated types at runtime). -/
inductive RpcRequest where
  | ping (request_id : Json) : RpcRequest
  | run (args_to_run : Json) (wait_response : Json) (request_id : Json) :
      RpcRequest

/-- The method string of a request, as set by the constructors. -/
def RpcRequest.method : RpcRequest → String
  | .ping _ => "ping"
  | .run _ _ _ => "run"

/-- The request id of a request. -/
def RpcRequest.rid : RpcRequest → Json
  | .ping i => i
  | .run _ _ i => i

/-- The params member, as set by the constructors: None for RequestPing,
the two-key dict for RequestRun. -/
def RpcRequest.params : RpcRequest → Json
  | .ping _ => .null
  | .run args wr _ =>
      .obj [("args_to_run", args), ("wait_response", wr)]

/-- JsonRpcRequest.to_json_byte_line: the encoded line is the JSON object
holding id, method and params (json.dumps plus the trailing newline and
the utf-8 encode are the external stdlib codec). -/
def to_json_byte_line (r : RpcRequest) : Json :=
  .obj [("id", r.rid), ("method", .str r.method), ("params", r.params)]

/-- RequestRun(request_id=request_id, **params): Python keyword-argument
semantics.  params must be a mapping; a request_id key inside it would
collide with the positional keyword; every key must name a constructor
parameter; args_to_run is required; wait_response defaults to False. -/
def request_run_from_kwargs (request_id : Json) (params : Json) :
    Except PyErr RpcRequest :=
  match params with
  | .obj kwargs =>
      if (dict_get kwargs "request_id").isSome then
        .error (.type_error "got multiple values for argument request_id")
      else if kwargs.any
          (fun kv => kv.1 != "args_to_run" && kv.1 != "wait_response") then
        .error (.type_error "got an unexpected keyword argument")
      else
        match dict_get kwargs "args_to_run" with
        | none => .error (.type_error "missing argument args_to_run")
        | some args =>
            .ok (.run args
              ((dict_get kwargs "wait_response").getD (.bool false))
              request_id)
  | _ => .error (.type_error "argument after ** must be a mapping")

/-- request_selector: decode the byte line to a dict, read the method,
request_id and params keys (KeyError when absent, in this order, before
any dispatch), then dispatch on the method string; an unknown method
raises TypeError. -/
def request_selector (data : Json) : Except PyErr RpcRequest :=
  match json_byte_line_to_dict data with
  | .error e => .error e
  | .ok d =>
      match dict_get d "method" with
      | none => .error (.key_error "method")
      | some method =>
          match dict_get d "request_id" with
          | none => .error (.key_error "request_id")
          | some request_id =>
              match dict_get d "params" with
              | none => .error (.key_error "params")
              | some params =>
                  match method with
                  | .str "ping" => .ok (.ping request_id)
                  | .str "run" => request_run_from_kwargs request_id params
                  | _ => .error (.type_error "Unknown rpc method.")

/-- JsonRpcRequest._get_reponse_bytes (name as in the source): the
response line is the JSON object holding the echoed id and the result. -/
def get_reponse_bytes (request_id : Json) (rpc_data : Json) : Json :=
  .obj [("id", request_id), ("result", rpc_data)]

/-- RequestPing.response_ping: result is the one-element array "pong". -/
def response_ping (request_id : Json) : Json :=
  get_reponse_bytes request_id (.arr [.str "pong"])

/-- RequestRun.response_run: result is the dict with the captured text
under the key "return". -/
def response_run (request_id : Json) (text : String) : Json :=
  get_reponse_bytes request_id (.obj [("return", .str text)])

/-- asyncio.subprocess constant DEVNULL. -/
def DEVNULL : Int := -3

/-- asyncio.subprocess constant PIPE. -/
def PIPE : Int := -1

/-- asyncio.subprocess constant STDOUT. -/
def STDOUT : Int := -2

/-- The three stdio wirings create_subprocess_exec is called with in
BubblejailHelper.run_command. -/
inductive StdioWiring where
  | all_devnull : StdioWiring
  | pipe_merged : StdioWiring
  | inherit_all : StdioWiring
deriving DecidableEq

/-- Observable actions of one run_command invocation.  awaited_exit is
p.wait(); communicated is p.communicate(), which waits for the process
to exit and drains the merged output stream fully. -/
inductive ExecEvent where
  | spawned (wiring : StdioWiring) : ExecEvent
  | awaited_exit : ExecEvent
  | communicated : ExecEvent
deriving DecidableEq

/-- BubblejailHelper.run_command.  The argument vector only reaches the
spawned process, so it is not a parameter of the model; the merged
output text that communicate() would drain (already utf-8 decoded) is
supplied as merged_output_text.  Returns the trace of spawn/wait actions
performed and the value run_command returns. -/
def run_command (std_in_out_mode : Option Int)
    (merged_output_text : String) : List ExecEvent × Option String :=
  let wiring :=
    if std_in_out_mode = some DEVNULL then StdioWiring.all_devnull
    else if std_in_out_mode = some PIPE then StdioWiring.pipe_merged
    else StdioWiring.inherit_all
  if std_in_out_mode = none then
    ([ExecEvent.spawned wiring, ExecEvent.awaited_exit], none)
  else if std_in_out_mode = some PIPE then
    ([ExecEvent.spawned wiring, ExecEvent.communicated],
      some merged_output_text)
  else
    ([ExecEvent.spawned wiring], none)

/-- One dispatch round of BubblejailHelper.client_handler on a decoded
request: a ping is answered by response_ping; a run invokes run_command
with PIPE when wait_response is truthy and None otherwise, and sends a
response only when run_command returned text (otherwise the handler
continues with no response). -/
def client_handle_request (req : RpcRequest) (merged_output_text : String) :
    List ExecEvent × Option Json :=
  match req with
  | .ping rid => ([], some (response_ping rid))
  | .run _ wr rid =>
      let mode := if py_truthy wr then some PIPE else none
      let r := run_command mode merged_output_text
      match r.2 with
      | none => (r.1, none)
      | some text => (r.1, some (response_run rid text))

/-- How a sequence of os.waitpid(-1, WNOHANG) calls ends once the pending
exit records are consumed: the tuple (0, 0) when children remain but
none has exited, or a raised ChildProcessError when there are no
children at all. -/
inductive WaitpidEnd where
  | zero_tuple : WaitpidEnd
  | child_process_error : WaitpidEnd
deriving DecidableEq

/-- The while loop body of handle_children: consume pending (pid, code)
exit records one per iteration; a (0, 0) record fails the loop condition
and a record with pid 0 takes the explicit early return; when the
records run out the loop either sees (0, 0) and stops or waitpid raises.
Returns the list of reaped records (in order) and the raised error, if
any escaped the loop. -/
def handle_children_loop :
    List (Nat × Nat) → WaitpidEnd → List (Nat × Nat) × Option PyErr
  | [], .zero_tuple => ([], none)
  | [], .child_process_error => ([], some (.type_error "ChildProcessError"))
  | (p, c) :: rest, fin =>
      if (p, c) = (0, 0) then ([], none)
      else if p = 0 then ([], none)
      else
        let r := handle_children_loop rest fin
        ((p, c) :: r.1, r.2)

/-- handle_children: run the reaping loop under the try block that
swallows ChildProcessError.  Returns the reaped records and true when
the function returned normally (it always does: the only raisable error
is the caught ChildProcessError). -/
def handle_children (pending : List (Nat × Nat)) (fin : WaitpidEnd) :
    List (Nat × Nat) × Bool :=
  match handle_children_loop pending fin with
  | (log, none) => (log, true)
  | (log, some _) => (log, true)

/-- Signals sent by terminate_children. -/
inductive Sig where
  | sigterm : Sig
  | sigkill : Sig
deriving DecidableEq

/-- Observable actions of terminate_children: a signal delivered to a
pid, the 0.5 s synchronous sleep, and the final cancellation of the main
run_helper task. -/
inductive TcEvent where
  | sig (pid : Nat) (s : Sig) : TcEvent
  | sleep_half : TcEvent
  | cancel_main : TcEvent
deriving DecidableEq

/-- State threaded through terminate_children: the signal_counter and
the pids_sigtermed set (as a list). -/
structure TermState where
  signal_counter : Nat
  pids_sigtermed : List Nat
deriving DecidableEq

/-- The per-pid body of signal_all_children: once signal_counter exceeds
20 the pid is sent SIGKILL unconditionally; otherwise it is sent SIGTERM
only if it has not been SIGTERMed before, and is then recorded. -/
def signal_one_pid (st : TermState) (pid : Nat) : TermState × List TcEvent :=
  if st.signal_counter > 20 then (st, [.sig pid .sigkill])
  else if pid ∈ st.pids_sigtermed then (st, [])
  else ({ st with pids_sigtermed := pid :: st.pids_sigtermed },
    [.sig pid .sigterm])

/-- Fold step accumulating the per-pid actions of one broadcast. -/
def signal_fold (acc : TermState × List TcEvent) (pid : Nat) :
    TermState × List TcEvent :=
  let r := signal_one_pid acc.1 pid
  (r.1, acc.2 ++ r.2)

/-- signal_all_children: increment signal_counter, then visit every
current child pid (the flattened lists read from
/proc/self/task/*/children, supplied here as the children snapshot). -/
def signal_all_children (children : List Nat) (st : TermState) :
    TermState × List TcEvent :=
  children.foldl signal_fold
    ({ st with signal_counter := st.signal_counter + 1 }, [])

/-- One os.wait3(WNOHANG) outcome inside the terminate_children loop. -/
inductive Wait3Result where
  | reaped (pid : Nat) : Wait3Result
  | none_ready : Wait3Result
  | no_children : Wait3Result
deriving DecidableEq

/-- One iteration of the terminate_children while loop, given the wait3
outcome: a reaped child just loops again; pid 0 (none ready) sleeps
0.5 s and re-broadcasts; ChildProcessError breaks the loop (none). -/
def terminate_step (children : List Nat) (st : TermState)
    (w : Wait3Result) : Option (TermState × List TcEvent) :=
  match w with
  | .reaped _ => some (st, [])
  | .none_ready =>
      let r := signal_all_children children st
      some (r.1, .sleep_half :: r.2)
  | .no_children => none

/-- The terminate_children while loop over a finite list of wait3
outcomes; on break (ChildProcessError) the main run_helper task is
cancelled.  If the outcome list runs out the loop is still spinning and
no cancellation has happened yet. -/
def terminate_loop (children : List Nat) :
    TermState → List Wait3Result → TermState × List TcEvent
  | st, [] => (st, [])
  | st, w :: ws =>
      match terminate_step children st w with
      | none => (st, [.cancel_main])
      | some (st', evs) =>
          let r := terminate_loop children st' ws
          (r.1, evs ++ r.2)

/-- terminate_children: initial broadcast from the zero state, then the
collection loop driven by the supplied wait3 outcomes.  The children
snapshot is held fixed, which is exact for the scenarios considered
here (a child that never exits). -/
def terminate_children (children : List Nat) (waits : List Wait3Result) :
    TermState × List TcEvent :=
  let first := signal_all_children children ⟨0, []⟩
  let rest := terminate_loop children first.1 waits
  (rest.1, first.2 ++ rest.2)

/-- A snapshot of the process tree as read from /proc: whether any
/proc/self/task/*/children file is non-empty, and the set of command
names (stat field 2, parentheses stripped) of all live processes. -/
structure ProcSnapshot where
  has_child : Bool
  commands : List String
deriving DecidableEq

/-- BubblejailHelper.proc_has_process_command on a snapshot. -/
def proc_has_process_command (snap : ProcSnapshot) (cmd : String) : Bool :=
  snap.commands.contains cmd

/-- The is_time_to_termniate test of termninator_watcher (source
spelling kept): with no configured command, terminate when the process
has no child; with a configured command, terminate when no process of
that command name exists. -/
def is_time_to_termniate (look : Option String) (snap : ProcSnapshot) :
    Bool :=
  match look with
  | none => !snap.has_child
  | some cmd => !(proc_has_process_command snap cmd)

/-- What one cycle of the watcher loop encounters: either CancelledError
delivered at the sleep await, or the sleep completing and the liveness
predicate being evaluated on a fresh snapshot. -/
inductive WatcherCycle where
  | cancelled : WatcherCycle
  | poll (snap : ProcSnapshot) : WatcherCycle
deriving DecidableEq

/-- How a finite run of the watcher loop ended. -/
inductive WatcherOutcome where
  | still_running : WatcherOutcome
  | returned_cancelled : WatcherOutcome
  | returned_after_stop : WatcherOutcome
deriving DecidableEq

/-- BubblejailHelper.termninator_watcher over a finite list of cycles:
CancelledError is caught and the coroutine returns at once; a poll whose
predicate fires schedules stop_async (counted) and returns; otherwise
the loop continues.  Returns how many times shutdown was scheduled and
how the run ended. -/
def termninator_watcher (look : Option String) :
    List WatcherCycle → Nat × WatcherOutcome
  | [] => (0, .still_running)
  | .cancelled :: _ => (0, .returned_cancelled)
  | .poll snap :: rest =>
      if is_time_to_termniate look snap then (1, .returned_after_stop)
      else termninator_watcher look rest

/-- The fields of BubblejailHelper that stop_async touches: the watcher
task (none, or some d where d says whether the task is done), whether
the server exists, and the terminated latch. -/
structure HelperState where
  watcher_task : Option Bool
  server : Bool
  terminated : Bool
deriving DecidableEq

/-- The steps stop_async can perform, in trace order. -/
inductive StopStep where
  | cancel_watcher : StopStep
  | await_watcher : StopStep
  | close_server : StopStep
  | wait_server_closed : StopStep
  | set_terminated : StopStep
deriving DecidableEq

/-- BubblejailHelper.stop_async: cancel and await the watcher task when
it exists and is not done; then close and await the server when it
exists; then set the terminated event. -/
def stop_async (st : HelperState) : List StopStep × HelperState :=
  let watcher_steps :=
    match st.watcher_task with
    | some false => [StopStep.cancel_watcher, StopStep.await_watcher]
    | _ => []
  let server_steps :=
    if st.server then [StopStep.close_server, StopStep.wait_server_closed]
    else []
  (watcher_steps ++ server_steps ++ [StopStep.set_terminated],
    { st with terminated := true })

/-- Classifier for the watcher-directed steps of stop_async. -/
def StopStep.watcher_step : StopStep → Bool
  | .cancel_watcher => true
  | .await_watcher => true
  | _ => false

/-- Classifier for the server-directed steps of stop_async. -/
def StopStep.server_step : StopStep → Bool
  | .close_server => true
  | .wait_server_closed => true
  | _ => false

/-- C6: for every request id (null included), the response to a Ping
request is exactly the line with the same id echoed unchanged and the
result payload always equal to the array with the single entry "pong";
the handler performs no process execution for a ping. -/
theorem ping_response_exact (rid : Json) (merged : String) :
    client_handle_request (.ping rid) merged =
      ([], some (Json.obj [("id", rid), ("result", .arr [.str "pong"])])) :=
  rfl

/-- C7: encoding any Ping request with to_json_byte_line and decoding
the line again with request_selector yields a Ping request with the
same method and the same request id, a null id included. -/
theorem ping_round_trip (rid : Json) :
    request_selector (to_json_byte_line (.ping rid)) = .ok (.ping rid) :=
  rfl

/-- C10: a run request whose params dict contains args_to_run but omits
wait_response decodes successfully with wait_response defaulted to
False, and handling it runs the command with inherited stdio (mode
None: plain spawn then wait) and sends no response. -/
theorem run_default_wait_response (rid args : Json) (merged : String) :
    request_selector (.obj [("id", rid), ("method", .str "run"),
        ("params", .obj [("args_to_run", args)])]) =
      .ok (.run args (.bool false) rid) ∧
    client_handle_request (.run args (.bool false) rid) merged =
      ([.spawned .inherit_all, .awaited_exit], none) :=
  ⟨rfl, rfl⟩

/-- C3 counterexample: in Discarded mode (std_in_out_mode = DEVNULL)
run_command spawns the process with all stdio redirected to the null
sink and returns immediately: its trace holds neither the wait nor the
communicate action, so it does not return only after the process has
exited, refuting the claim for the Discarded mode. -/
theorem run_command_discarded_cex :
    run_command (some DEVNULL) "out" =
      ([ExecEvent.spawned .all_devnull], none) ∧
    ExecEvent.awaited_exit ∉ (run_command (some DEVNULL) "out").1 ∧
    ExecEvent.communicated ∉ (run_command (some DEVNULL) "out").1 := by
  decide

/-- C3 amended: in Inherit mode (None) run_command spawns without
redirection, awaits the exit and returns nothing; in Captured mode
(PIPE) it spawns with stdout piped, stderr merged into stdout and stdin
piped, waits while draining the merged stream fully via communicate,
and returns the drained text; in Discarded mode (DEVNULL) it spawns
with all three streams on the null sink and returns nothing without
awaiting the exit. -/
theorem run_command_modes (merged : String) :
    run_command none merged =
      ([ExecEvent.spawned .inherit_all, ExecEvent.awaited_exit], none) ∧
    run_command (some PIPE) merged =
      ([ExecEvent.spawned .pipe_merged, ExecEvent.communicated],
        some merged) ∧
    run_command (some DEVNULL) merged =
      ([ExecEvent.spawned .all_devnull], none) :=
  ⟨rfl, rfl, rfl⟩

/-- Folding signal_fold never changes the signal counter: only
signal_all_children itself increments it, once per broadcast. -/
theorem signal_fold_counter (children : List Nat) :
    ∀ acc : TermState × List TcEvent,
      (children.foldl signal_fold acc).1.signal_counter =
        acc.1.signal_counter := by
  induction children with
  | nil => intro acc; rfl
  | cons q rest ih =>
      intro acc
      rw [List.foldl_cons, ih]
      unfold signal_fold signal_one_pid
      split_ifs <;> rfl

/-- A broadcast over the single child p, already recorded in
pids_sigtermed: the counter is incremented and the only signal possibly
sent is a SIGKILL, exactly when the incremented counter exceeds 20. -/
theorem signal_all_single (p c : Nat) :
    signal_all_children [p] ⟨c, [p]⟩ =
      (⟨c + 1, [p]⟩,
        if c + 1 > 20 then [TcEvent.sig p .sigkill] else []) := by
  by_cases h : c + 1 > 20 <;>
    simp [signal_all_children, signal_fold, signal_one_pid, h]

/-- The very first broadcast over the single fresh child p sends exactly
one SIGTERM and records p. -/
theorem signal_all_fresh (p : Nat) :
    signal_all_children [p] ⟨0, []⟩ = (⟨1, [p]⟩, [TcEvent.sig p .sigterm]) :=
  rfl

/-- Counting the signals the collection loop sends to a never-reaped
child p across n failed collection attempts, starting after broadcast
number c: no further SIGTERM ever, and one SIGKILL per re-broadcast
whose incremented counter exceeds 20. -/
theorem terminate_loop_counts (p : Nat) :
    ∀ n c : Nat,
      ((terminate_loop [p] ⟨c, [p]⟩
          (List.replicate n .none_ready)).2.count
            (TcEvent.sig p .sigkill) = n - (20 - c)) ∧
      ((terminate_loop [p] ⟨c, [p]⟩
          (List.replicate n .none_ready)).2.count
            (TcEvent.sig p .sigterm) = 0) := by
  intro n
  induction n with
  | zero => intro c; simp [terminate_loop]
  | succ n ih =>
      intro c
      have h := ih (c + 1)
      by_cases hc : c + 1 > 20 <;>
        · simp only [List.replicate_succ, terminate_loop, terminate_step,
            signal_all_single, hc, if_true, if_false, List.count_append,
            List.count_cons, List.count_nil]
          simp only [List.count_append, List.count_cons, List.count_nil] at h
          simp_all
          omega

/-- C1 counterexample: with a single child (pid 42) that is never
reaped, already the re-broadcast following the 20th failed non-blocking
collection attempt sends it SIGKILL, so it is not the case that the
first 21 failed attempts are all followed by kill-free re-broadcasts. -/
theorem terminate_children_kill_after_20_cex :
    TcEvent.sig 42 .sigkill ∈
      (terminate_children [42] (List.replicate 20 .none_ready)).2 := by
  decide

/-- C1 amended: for a child p that is never reaped, exactly one SIGTERM
is ever sent (by the initial broadcast); across n failed collection
attempts exactly n minus 19 SIGKILLs are sent, so the re-broadcasts
following the first 19 failed attempts send nothing and every
re-broadcast from the one following the 20th failed attempt on sends
SIGKILL; equivalently some SIGKILL has been sent iff at least 20
attempts failed, i.e. iff the broadcast counter, which counts the
initial broadcast plus one per failed attempt, exceeds 20. -/
theorem terminate_children_escalation (p n : Nat) :
    ((terminate_children [p] (List.replicate n .none_ready)).2.count
        (TcEvent.sig p .sigterm) = 1) ∧
    ((terminate_children [p] (List.replicate n .none_ready)).2.count
        (TcEvent.sig p .sigkill) = n - 19) ∧
    ((TcEvent.sig p .sigkill ∈
        (terminate_children [p] (List.replicate n .none_ready)).2) ↔
      20 ≤ n) := by
  have h := terminate_loop_counts p n 1
  have hts : (terminate_children [p] (List.replicate n .none_ready)).2 =
      TcEvent.sig p .sigterm ::
        (terminate_loop [p] ⟨1, [p]⟩ (List.replicate n .none_ready)).2 := by
    simp [terminate_children, signal_all_fresh]
  rw [hts]
  simp only [List.count_cons, List.count_nil, h.1, h.2, List.mem_cons]
  refine ⟨by simp, by simp, ?_⟩
  constructor
  · rintro (hk | hk)
    · exact absurd hk (by simp)
    · have := List.count_pos_iff.2 hk
      omega
  · intro hn
    right
    refine List.count_pos_iff.1 ?_
    rw [h.1]
    omega

/-- C2 counterexample: one loop iteration of terminate_children in which
wait3 reaped a child (pid 9) emits no event at all and leaves the state
unchanged, while the claimed immediate signal re-broadcast at that state
would have incremented the round counter and sent SIGTERM to the
not-yet-signalled current child 7; so a successful reap does not loop
back to the re-broadcast step. -/
theorem terminate_step_reaped_cex :
    terminate_step [7] ⟨1, []⟩ (.reaped 9) = some (⟨1, []⟩, []) ∧
    signal_all_children [7] ⟨1, []⟩ = (⟨2, [7]⟩, [TcEvent.sig 7 .sigterm]) := by
  decide

/-- C2 amended: each outcome of the non-blocking wait is handled as
follows: a reaped child sends the loop straight back to the next wait,
with no sleep, no re-broadcast and no state change; no child ready
sleeps 0.5 s and re-broadcasts, the broadcast incrementing the round
counter; the no-children-remain error ends the loop, after which the
main run task is cancelled. -/
theorem terminate_step_cases (children : List Nat) (st : TermState) :
    (∀ q, terminate_step children st (.reaped q) = some (st, [])) ∧
    (terminate_step children st .none_ready =
      some ((signal_all_children children st).1,
        .sleep_half :: (signal_all_children children st).2)) ∧
    ((signal_all_children children st).1.signal_counter =
      st.signal_counter + 1) ∧
    (terminate_step children st .no_children = none) ∧
    (terminate_loop children st [.no_children] = (st, [.cancel_main])) :=
  ⟨fun _ => rfl, rfl, signal_fold_counter children _, rfl, rfl⟩

/-- C4: stop_async sets the terminated latch; its last step is setting
that latch; setting it happens exactly once; the watcher-directed steps
are exactly cancel-then-await precisely when the watcher task exists and
is not done; the server-directed steps are exactly close-then-wait
precisely when the server exists; and the watcher-directed steps form a
prefix of the whole trace, so they precede the server steps, which
precede the latch. -/
theorem stop_async_order (st : HelperState) :
    ((stop_async st).2.terminated = true) ∧
    ((stop_async st).1.getLast? = some .set_terminated) ∧
    ((stop_async st).1.count .set_terminated = 1) ∧
    ((stop_async st).1.filter StopStep.watcher_step =
      (match st.watcher_task with
        | some false => [StopStep.cancel_watcher, StopStep.await_watcher]
        | _ => [])) ∧
    ((stop_async st).1.filter StopStep.server_step =
      (if st.server then
        [StopStep.close_server, StopStep.wait_server_closed]
      else [])) ∧
    ((stop_async st).1.take
        ((stop_async st).1.filter StopStep.watcher_step).length =
      (stop_async st).1.filter StopStep.watcher_step) := by
  obtain ⟨w, s, t⟩ := st
  rcases w with _ | b
  · cases s <;> cases t <;> decide
  · cases b <;> cases s <;> cases t <;> decide

/-- C5: as long as every poll finds the liveness predicate alive, the
watcher schedules nothing; a cancellation delivered then makes it return
at once having scheduled no shutdown; while a poll finding the predicate
dead schedules shutdown exactly once and ends the watcher loop; with the
input exhausted and only alive polls seen, it is still looping and has
scheduled nothing. -/
theorem termninator_watcher_single_source (look : Option String)
    (pre : List ProcSnapshot)
    (h : ∀ s ∈ pre, is_time_to_termniate look s = false) :
    (termninator_watcher look
        (pre.map WatcherCycle.poll ++ [.cancelled]) =
      (0, .returned_cancelled)) ∧
    (∀ snap, is_time_to_termniate look snap = true →
      termninator_watcher look
          (pre.map WatcherCycle.poll ++ [.poll snap]) =
        (1, .returned_after_stop)) ∧
    (termninator_watcher look (pre.map WatcherCycle.poll) =
      (0, .still_running)) := by
  induction pre with
  | nil =>
      refine ⟨rfl, ?_, rfl⟩
      intro snap hsnap
      simp [termninator_watcher, hsnap]
  | cons s rest ih =>
      have hs : is_time_to_termniate look s = false := h s (by simp)
      obtain ⟨ih1, ih2, ih3⟩ := ih (fun x hx => h x (by simp [hx]))
      refine ⟨?_, ?_, ?_⟩
      · simpa [termninator_watcher, hs] using ih1
      · intro snap hsnap
        simpa [termninator_watcher, hs] using ih2 snap hsnap
      · simpa [termninator_watcher, hs] using ih3

/-- C5 witness: with no configured command, one alive poll (a child
exists) followed by cancellation schedules nothing; one alive poll
followed by a childless poll schedules shutdown once and ends. -/
theorem termninator_watcher_single_source_witness :
    (∀ s ∈ ([⟨true, []⟩] : List ProcSnapshot),
      is_time_to_termniate none s = false) ∧
    (termninator_watcher none
        (([⟨true, []⟩] : List ProcSnapshot).map WatcherCycle.poll ++
          [.cancelled]) =
      (0, .returned_cancelled)) ∧
    (termninator_watcher none
        (([⟨true, []⟩] : List ProcSnapshot).map WatcherCycle.poll ++
          [.poll ⟨false, []⟩]) =
      (1, .returned_after_stop)) := by
  have h := termninator_watcher_single_source none [⟨true, []⟩] (by decide)
  exact ⟨by decide, h.1, h.2.1 ⟨false, []⟩ (by decide)⟩

/-- handle_children always returns normally: the only error its loop can
raise is ChildProcessError, and it is caught. -/
theorem handle_children_eq (pending : List (Nat × Nat)) (fin : WaitpidEnd) :
    handle_children pending fin =
      ((handle_children_loop pending fin).1, true) := by
  unfold handle_children
  rcases handle_children_loop pending fin with ⟨log, _ | e⟩ <;> rfl

/-- The reaping loop consumes every genuine pending exit record, one per
iteration, in order. -/
theorem handle_children_loop_log (fin : WaitpidEnd) :
    ∀ pending : List (Nat × Nat), (∀ r ∈ pending, r.1 ≠ 0) →
      (handle_children_loop pending fin).1 = pending := by
  intro pending
  induction pending with
  | nil => intro _; cases fin <;> rfl
  | cons r rest ih =>
      intro h
      obtain ⟨p, c⟩ := r
      have hp : p ≠ 0 := h (p, c) (by simp)
      have hpc : ¬((p, c) = ((0 : Nat), (0 : Nat))) := by
        simp [Prod.ext_iff]
        intro h0
        exact absurd h0 hp
      simp [handle_children_loop, hpc, hp,
        ih (fun x hx => h x (by simp [hx]))]

/-- C8: invoked with any list of genuine pending exit records (pid not
zero) and either way the record stream ends, the reaper consumes exactly
the pending records, one per non-blocking wait, in order, and returns
normally: the no-exited-child result and the no-children error both end
the loop benignly, and the function touches no other daemon state. -/
theorem handle_children_reaps_all (pending : List (Nat × Nat))
    (fin : WaitpidEnd) (h : ∀ r ∈ pending, r.1 ≠ 0) :
    handle_children pending fin = (pending, true) := by
  rw [handle_children_eq, handle_children_loop_log fin pending h]

/-- C8 witness: two exit records, record stream ending in the
no-children error: both are reaped and the reaper returns normally. -/
theorem handle_children_reaps_all_witness :
    (∀ r ∈ ([(5, 0), (7, 2)] : List (Nat × Nat)), r.1 ≠ 0) ∧
    handle_children [(5, 0), (7, 2)] .child_process_error =
      ([(5, 0), (7, 2)], true) :=
  ⟨by decide, handle_children_reaps_all _ _ (by decide)⟩

/-- Rewriting the binding of one key leaves lookups of other keys
unchanged. -/
theorem find?_map_set (k m : String) (v : Json) (h : m ≠ k) :
    ∀ d : List (String × Json),
      (d.map (fun kv => if kv.1 == k then (k, v) else kv)).find?
          (fun kv => kv.1 == m) =
        d.find? (fun kv => kv.1 == m) := by
  intro d
  induction d with
  | nil => rfl
  | cons kv rest ih =>
      simp only [List.map_cons]
      by_cases hk : (kv.1 == k) = true
      · have h1 : kv.1 = k := by simpa [beq_iff_eq] using hk
        have h2 : ((k : String) == m) = false := by
          simp [beq_iff_eq]
          exact fun he => h he.symm
        have h3 : (kv.1 == m) = false := by
          rw [h1]
          exact h2
        rw [if_pos hk]
        simp only [List.find?_cons, h2, h3]
        exact ih
      · rw [if_neg hk]
        simp only [List.find?_cons]
        cases hm : (kv.1 == m)
        · exact ih
        · rfl

/-- dict_set for one key does not affect dict_get of a distinct key. -/
theorem dict_get_set_ne (d : List (String × Json)) (k m : String)
    (v : Json) (h : m ≠ k) :
    dict_get (dict_set d k v) m = dict_get d m := by
  unfold dict_set
  by_cases hp : (d.find? (fun kv => kv.1 == k)).isSome = true
  · simp only [hp, if_true]
    unfold dict_get
    rw [find?_map_set k m v h]
  · simp only [hp, if_false, Bool.false_eq_true]
    unfold dict_get
    rw [List.find?_append]
    have h2 : (([(k, v)] : List (String × Json)).find?
        (fun kv => kv.1 == m)) = none := by
      simp [beq_iff_eq]
      exact fun he => h he.symm
    rw [h2]
    cases d.find? (fun kv => kv.1 == m) <;> rfl

/-- dict_pop of one key does not affect dict_get of a distinct key. -/
theorem dict_get_pop_ne (d : List (String × Json)) (k m : String)
    (h : m ≠ k) :
    dict_get (dict_pop d k) m = dict_get d m := by
  induction d with
  | nil => rfl
  | cons kv rest ih =>
      unfold dict_pop at *
      unfold dict_get at *
      simp only [List.filter_cons]
      by_cases hk : (kv.1 != k) = true
      · simp only [hk, if_true, List.find?_cons]
        by_cases hm : (kv.1 == m) = true
        · simp [hm]
        · have hm' : (kv.1 == m) = false := by simpa using hm
          simp only [hm', List.find?_cons] at *
          exact ih
      · have h1 : kv.1 = k := by
          simpa [bne_iff_ne] using hk
        have h3 : (kv.1 == m) = false := by
          simp [beq_iff_eq, h1]
          exact fun he => h he.symm
        simp only [hk, if_false, Bool.false_eq_true, List.find?_cons, h3]
        exact ih

/-- When the key is present, rewriting its binding makes lookup return
the new binding. -/
theorem find?_map_set_self (k : String) (v : Json) :
    ∀ d : List (String × Json),
      (d.find? (fun kv => kv.1 == k)).isSome = true →
      (d.map (fun kv => if kv.1 == k then (k, v) else kv)).find?
          (fun kv => kv.1 == k) = some (k, v) := by
  intro d
  induction d with
  | nil => intro h; simp [List.find?] at h
  | cons kv rest ih =>
      intro hp
      simp only [List.map_cons]
      by_cases hk : (kv.1 == k) = true
      · rw [if_pos hk]
        have hkk : ((k : String) == k) = true := by simp
        simp only [List.find?_cons, hkk]
      · rw [if_neg hk]
        have hk' : (kv.1 == k) = false := by simpa using hk
        simp only [List.find?_cons, hk']
        apply ih
        simp only [List.find?_cons, hk'] at hp
        exact hp

/-- dict_set makes dict_get of the same key return the new value. -/
theorem dict_get_set_self (d : List (String × Json)) (k : String)
    (v : Json) : dict_get (dict_set d k v) k = some v := by
  unfold dict_set
  by_cases hp : (d.find? (fun kv => kv.1 == k)).isSome = true
  · simp only [hp, if_true]
    unfold dict_get
    rw [find?_map_set_self k v d hp]
    rfl
  · simp only [hp, if_false, Bool.false_eq_true]
    unfold dict_get
    rw [List.find?_append]
    have h0 : d.find? (fun kv => kv.1 == k) = none := by
      rcases ho : d.find? (fun kv => kv.1 == k) with _ | x
      · exact ho
      · rw [ho] at hp
        simp at hp
    rw [h0]
    simp

/-- C9: decoding a request line requires all three keys id, method and
params: whatever else the JSON object holds, a missing id key fails
with KeyError id while renaming; with id present, a missing method key
fails with KeyError method; with id and method present, a missing
params key fails with KeyError params; each failure happens before any
dispatch on the method, so it applies to Ping lines too. -/
theorem request_selector_requires_keys (d : List (String × Json)) :
    (dict_get d "id" = none →
      request_selector (.obj d) = .error (.key_error "id")) ∧
    (∀ idv, dict_get d "id" = some idv → dict_get d "method" = none →
      request_selector (.obj d) = .error (.key_error "method")) ∧
    (∀ idv mv, dict_get d "id" = some idv →
      dict_get d "method" = some mv → dict_get d "params" = none →
      request_selector (.obj d) = .error (.key_error "params")) := by
  refine ⟨?_, ?_, ?_⟩
  · intro h
    simp [request_selector, json_byte_line_to_dict, h]
  · intro idv hid hm
    have hmethod : dict_get (dict_pop (dict_set d "request_id" idv) "id")
        "method" = none := by
      rw [dict_get_pop_ne _ _ _ (by decide),
        dict_get_set_ne _ _ _ _ (by decide), hm]
    simp [request_selector, json_byte_line_to_dict, hid, hmethod]
  · intro idv mv hid hm hp
    have hmethod : dict_get (dict_pop (dict_set d "request_id" idv) "id")
        "method" = some mv := by
      rw [dict_get_pop_ne _ _ _ (by decide),
        dict_get_set_ne _ _ _ _ (by decide), hm]
    have hrid : dict_get (dict_pop (dict_set d "request_id" idv) "id")
        "request_id" = some idv := by
      rw [dict_get_pop_ne _ _ _ (by decide), dict_get_set_self]
    have hparams : dict_get (dict_pop (dict_set d "request_id" idv) "id")
        "params" = none := by
      rw [dict_get_pop_ne _ _ _ (by decide),
        dict_get_set_ne _ _ _ _ (by decide), hp]
    simp [request_selector, json_byte_line_to_dict, hid, hmethod, hrid,
      hparams]

/-- C9 witness: three concrete lines, one per missing key. -/
theorem request_selector_requires_keys_witness :
    request_selector (.obj [("method", .str "ping"), ("params", .null)]) =
      .error (.key_error "id") ∧
    request_selector (.obj [("id", .null), ("params", .null)]) =
      .error (.key_error "method") ∧
    request_selector (.obj [("id", .null), ("method", .str "ping")]) =
      .error (.key_error "params") :=
  ⟨(request_selector_requires_keys _).1 rfl,
   (request_selector_requires_keys _).2.1 .null rfl rfl,
   (request_selector_requires_keys _).2.2 .null (.str "ping") rfl rfl rfl⟩
